import Mathlib

/-!
Verification of the model-invocation wrapper components of this repository:
the Vertex AI text-generation component (`haystack/components/generators/vertexai.py`)
and the local Whisper transcription component (exercised by
`test/components/audio/test_whisper_local.py`).

Python dictionaries are modelled as association lists `List (String × α)`
with first-match lookup; Python dicts have unique keys, for which this
lookup agrees with dict lookup. `{**d, **o}` is modelled by `pyDictMerge`.
-/

/-- Lookup of a key in an association list modelling a Python dict:
returns the value of the first pair whose key matches. -/
def getVal? {α : Type} : List (String × α) → String → Option α
  | [], _ => none
  | (k1, v) :: rest, k => if k1 = k then some v else getVal? rest k

/-- Key membership in an association list modelling a Python dict. -/
def containsKey {α : Type} (d : List (String × α)) (k : String) : Bool :=
  (getVal? d k).isSome

/-- Model of the Python dict expression \x7b**d, **o\x7d: the keys of `d`
in order, each carrying the value from `o` when `o` also has the key,
followed by the pairs of `o` whose keys are absent from `d`. -/
def pyDictMerge {α : Type} (d o : List (String × α)) : List (String × α) :=
  (d.map (fun kv => (kv.1, (getVal? o kv.1).getD kv.2)))
    ++ (o.filter (fun kv => (getVal? d kv.1).isNone))

/-- Model of Python `d.pop(k)` aftermath / removing one key from a dict:
drops every pair with key `k` (equivalent for unique-key dicts). -/
def eraseKey {α : Type} (d : List (String × α)) (k : String) : List (String × α) :=
  d.filter (fun kv => kv.1 != k)

/-! ## Vertex AI generator (`haystack/components/generators/vertexai.py`) -/

/-- Process-wide state of the `vertexai` SDK client: the sequence of
`vertexai.init(project=..., location=...)` invocations performed so far. -/
structure VertexState where
  init_calls : List (String × String)
deriving DecidableEq

/-- Model of `vertexai.init(project=..., location=...)`: records one more
global-configuration call on the process-wide state. -/
def vertexaiInit (s : VertexState) (project location : String) : VertexState :=
  { init_calls := s.init_calls ++ [(project, location)] }

/-- The `VertexAIGenerator` component: its constructor arguments as stored
by `__init__` (`self.project_id`, `self.location`, `self.model_name`,
`self.generation_kwargs`). -/
structure VertexAIGenerator (α : Type) where
  project_id : String
  location : String
  model_name : String
  generation_kwargs : List (String × α)
deriving DecidableEq

/-- Model of `VertexAIGenerator.__init__`: stores the arguments
(`generation_kwargs or \x7b\x7d` for an absent mapping) and calls
`vertexai.init(project=project_id, location=location)` as a side effect
on the process-wide state. -/
def VertexAIGenerator.mk_init {α : Type} (s : VertexState) (project_id location model_name : String)
    (generation_kwargs : Option (List (String × α))) :
    VertexState × VertexAIGenerator α :=
  (vertexaiInit s project_id location,
   { project_id := project_id
     location := location
     model_name := model_name
     generation_kwargs := generation_kwargs.getD [] })

/-- The `init_parameters` mapping produced by `default_to_dict`. -/
structure VertexInitParams (α : Type) where
  project_id : String
  location : String
  model_name : String
  generation_kwargs : List (String × α)
deriving DecidableEq

/-- The descriptor mapping produced by `default_to_dict`: a `type` marker
plus the `init_parameters` mapping. -/
structure ComponentDescriptor (α : Type) where
  type : String
  init_parameters : VertexInitParams α
deriving DecidableEq

/-- Model of `VertexAIGenerator.to_dict`: serializes the constructor
arguments via `default_to_dict`. -/
def VertexAIGenerator.to_dict {α : Type} (self : VertexAIGenerator α) : ComponentDescriptor α :=
  { type := "haystack.components.generators.vertexai.VertexAIGenerator"
    init_parameters :=
      { project_id := self.project_id
        location := self.location
        model_name := self.model_name
        generation_kwargs := self.generation_kwargs } }

/-- Model of `VertexAIGenerator.from_dict`: `default_from_dict` calls the
constructor with the stored `init_parameters`, which re-runs `__init__`
(including the `vertexai.init` side effect on the process-wide state). -/
def VertexAIGenerator.from_dict {α : Type} (s : VertexState) (data : ComponentDescriptor α) :
    VertexState × VertexAIGenerator α :=
  VertexAIGenerator.mk_init s data.init_parameters.project_id data.init_parameters.location
    data.init_parameters.model_name (some data.init_parameters.generation_kwargs)

/-- One invocation of the backend generation call
`TextGenerationModel.from_pretrained(model_name).predict(prompt, **merged)`:
the model identifier resolved, the prompt, and the keyword arguments passed. -/
structure PredictCall (α : Type) where
  model_name : String
  prompt : String
  params : List (String × α)
deriving DecidableEq

/-- The output mapping of `VertexAIGenerator.run`:
`\x7b"replies": [...], "metadata": [...]\x7d`. -/
structure GenResult (ρ : Type) where
  replies : List String
  metadata : List ρ
deriving DecidableEq

/-- Model of `VertexAIGenerator.run`: merges the instance defaults with the
call-time overrides (`\x7b**self.generation_kwargs, **(generation_kwargs or \x7b\x7d)\x7d`),
invokes the backend once, and returns
`\x7b"replies": [response.text], "metadata": [response]\x7d`. The backend is the
external collaborator `predict` with its text accessor `textOf`; the second
component records every backend invocation the call performs. -/
def VertexAIGenerator.run {α ρ : Type} (predict : String → String → List (String × α) → ρ)
    (textOf : ρ → String) (self : VertexAIGenerator α) (prompt : String)
    (generation_kwargs : Option (List (String × α))) :
    GenResult ρ × List (PredictCall α) :=
  let merged := pyDictMerge self.generation_kwargs (generation_kwargs.getD [])
  let response := predict self.model_name prompt merged
  ({ replies := [textOf response], metadata := [response] },
   [{ model_name := self.model_name, prompt := prompt, params := merged }])

/-! ## Heap model for dict object identity

The purity claim about the merge is about Python object identity: the merge
expression allocates a fresh dict and leaves both operand objects untouched.
A small store of dict objects addressed by references makes this statable. -/

/-- A store of Python dict objects; a reference is an index into `objs`. -/
structure DictStore (α : Type) where
  objs : List (List (String × α))

/-- Allocates a fresh dict object, returning the new store and the fresh
reference. -/
def DictStore.alloc {α : Type} (s : DictStore α) (d : List (String × α)) :
    DictStore α × Nat :=
  ({ objs := s.objs ++ [d] }, s.objs.length)

/-- Reads the dict object behind a reference. -/
def DictStore.deref {α : Type} (s : DictStore α) (r : Nat) : List (String × α) :=
  (s.objs.get? r).getD []

/-- The merge expression of `run` in the heap model: Python evaluates
`\x7b**d, **o\x7d` by allocating a new dict built from the contents of the two
operand objects; the operands themselves are only read. -/
def mergeAlloc {α : Type} (s : DictStore α) (rd ro : Nat) : DictStore α × Nat :=
  DictStore.alloc s (pyDictMerge (DictStore.deref s rd) (DictStore.deref s ro))

/-! ## Local Whisper transcriber

The component `haystack.components.audio.whisper_local.LocalWhisperTranscriber`
is exercised by `test/components/audio/test_whisper_local.py`; its module
itself is not part of the fragment, so it is modelled from the spec
(sections 3, 4.1, 4.2 and 4.4). -/

/-- One audio input item accepted by the transcriber: a structured
filesystem path value, a plain string path, or an open binary stream.
`π` is the path type and `σ` the stream-handle type. -/
inductive AudioInput (π σ : Type) where
  | path (p : π)
  | stringPath (s : String)
  | stream (handle : σ)
deriving DecidableEq

/-- A Python value appearing in a transcription result's metadata mapping:
a string, a structured path, or an opaque backend-supplied payload `β`. -/
inductive PyValue (π β : Type) where
  | str (s : String)
  | path (p : π)
  | raw (b : β)
deriving DecidableEq

/-- The classification kinds of section 4.1 of the spec. -/
inductive AudioKind where
  | path
  | stringPath
  | stream
deriving DecidableEq

/-- Modelled from the spec: `AudioInputDescriptor` of section 3, the kind of
an input item together with its derived identity value. -/
structure AudioInputDescriptor (π β : Type) where
  kind : AudioKind
  identity : PyValue π β
deriving DecidableEq

/-- Modelled from the spec: the `InputClassifier` of section 4.1. A stream
is classified `Stream` with the fixed sentinel identity; a plain string is
classified `StringPath` with itself as identity, unchanged; a structured
path value is classified `Path` with itself as identity, unchanged. No
inspection of stream contents, no path normalization. -/
def classify {π σ β : Type} : AudioInput π σ → AudioInputDescriptor π β
  | .stream _ => { kind := .stream, identity := .str "<<binary stream>>" }
  | .stringPath s => { kind := .stringPath, identity := .str s }
  | .path p => { kind := .path, identity := .path p }

/-- Modelled from the spec: the fixed recognized set of Whisper model
identifiers the constructor validates against. The spec fixes the set but
does not enumerate it; this set contains the identifiers the tests use as
valid ("tiny", "medium", "large", "large-v2" and the default "large") and
not the invalid example "whisper-1". -/
def availableModels : List String :=
  ["tiny", "tiny.en", "base", "base.en", "small", "small.en",
   "medium", "medium.en", "large", "large-v1", "large-v2"]

/-- A construction-time configuration error: a ValueError-class failure
carrying the offending model identifier and the message naming it. -/
structure WhisperInitError where
  offending : String
  message : String
deriving DecidableEq

/-- Modelled from the spec: the `LocalWhisperTranscriber` component state —
model identifier, device specifier, backend parameter mapping, and the
model handle (`none` while unloaded). `α` is the type of backend parameter
values, `μ` the type of the loaded backend model resource. -/
structure LocalWhisperTranscriber (α μ : Type) where
  model_name : String
  device : String
  whisper_params : List (String × α)
  model_handle : Option μ

/-- Modelled from the spec: `LocalWhisperTranscriber.__init__` (section 4.4):
validates the model identifier against the fixed recognized set, failing
fast with a ValueError-class error naming the invalid identifier, and on
success stores the arguments without loading the model. -/
def LocalWhisperTranscriber.mk_init {α μ : Type} (model_name_or_path device : String)
    (whisper_params : List (String × α)) :
    Except WhisperInitError (LocalWhisperTranscriber α μ) :=
  if availableModels.contains model_name_or_path then
    .ok { model_name := model_name_or_path
          device := device
          whisper_params := whisper_params
          model_handle := none }
  else
    .error { offending := model_name_or_path
             message := "Model name \x27" ++ model_name_or_path ++ "\x27 not recognized" }

/-- Modelled from the spec: `warm_up` (section 4.2): when the handle is
unloaded, invoke the loader once and store the resource; when already
loaded, do nothing and do not re-invoke the loader. The second component
counts the loader invocations this call performed. -/
def LocalWhisperTranscriber.warm_up {α μ : Type} (load_model : String → String → μ)
    (c : LocalWhisperTranscriber α μ) : LocalWhisperTranscriber α μ × Nat :=
  match c.model_handle with
  | some _ => (c, 0)
  | none => ({ c with model_handle := some (load_model c.model_name c.device) }, 1)

/-- Calls `warm_up` `n` times in direct succession, accumulating the number
of loader invocations performed. -/
def warmUpTimes {α μ : Type} (load_model : String → String → μ)
    (c : LocalWhisperTranscriber α μ) : Nat → LocalWhisperTranscriber α μ × Nat
  | 0 => (c, 0)
  | n + 1 =>
    let step := LocalWhisperTranscriber.warm_up load_model c
    let rest := warmUpTimes load_model step.1 n
    (rest.1, step.2 + rest.2)

/-- Modelled from the spec: `TranscriptionResult` of section 3 — the
transcribed text and the metadata mapping. -/
structure TranscriptionResult (π β : Type) where
  content : String
  meta : List (String × PyValue π β)
deriving DecidableEq

/-- Modelled from the spec: building one result record (section 4.4 step 2):
`content` is the raw result's text field and `meta` is
`\x7baudio_file: identity\x7d ∪ (raw result minus the text field)`. `none`
when the raw backend result carries no text field. -/
def buildResult {π σ β : Type} (item : AudioInput π σ)
    (raw : List (String × PyValue π β)) : Option (TranscriptionResult π β) :=
  match getVal? raw "text" with
  | some (.str t) =>
    some { content := t
           meta := ("audio_file", (classify item).identity) :: eraseKey raw "text" }
  | _ => none

/-- Processes the input items in order, building one result per item; fails
when a raw backend result carries no text field. -/
def transcribeList {π σ α β : Type}
    (backend : AudioInput π σ → List (String × α) → List (String × PyValue π β))
    (params : List (String × α)) :
    List (AudioInput π σ) → Option (List (TranscriptionResult π β))
  | [] => some []
  | item :: rest =>
    match buildResult item (backend item params), transcribeList backend params rest with
    | some r, some rs => some (r :: rs)
    | _, _ => none

/-- Failures of the transcription run path: inference before warm-up, or a
raw backend result without a text field. -/
inductive WhisperRunError where
  | notReady
  | missingText
deriving DecidableEq

/-- Modelled from the spec: the lower-level `transcribe` entry point
(section 4.4): requires the handle to be loaded (NotReadyError otherwise)
and returns the ordered sequence of results, one per input item, passing
the original item and the stored backend parameters to the backend call. -/
def LocalWhisperTranscriber.transcribe {π σ α β μ : Type}
    (backend : AudioInput π σ → List (String × α) → List (String × PyValue π β))
    (c : LocalWhisperTranscriber α μ) (audio_files : List (AudioInput π σ)) :
    Except WhisperRunError (List (TranscriptionResult π β)) :=
  match c.model_handle with
  | none => .error .notReady
  | some _ =>
    match transcribeList backend c.whisper_params audio_files with
    | some rs => .ok rs
    | none => .error .missingText

/-- The output mapping of `run`: `\x7b"documents": [...]\x7d`. -/
structure RunOutput (π β : Type) where
  documents : List (TranscriptionResult π β)
deriving DecidableEq

/-- Modelled from the spec: the higher-level `run` entry point (section
4.4): wraps the sequence returned by `transcribe` in the named output slot
`documents`. -/
def LocalWhisperTranscriber.run {π σ α β μ : Type}
    (backend : AudioInput π σ → List (String × α) → List (String × PyValue π β))
    (c : LocalWhisperTranscriber α μ) (audio_files : List (AudioInput π σ)) :
    Except WhisperRunError (RunOutput π β) :=
  (LocalWhisperTranscriber.transcribe backend c audio_files).map
    (fun docs => { documents := docs })

/-! ## Concrete instances

Concrete components, backends and inputs mirroring the test fixtures,
used to evaluate the theorems on closed inputs. -/

/-- A concrete backend for the generator: deterministic response text. -/
def wPredict : String → String → List (String × Nat) → String :=
  fun m p _ => m ++ ":" ++ p

/-- A concrete generator instance (the test fixture arguments). -/
def wGen : VertexAIGenerator Nat :=
  { project_id := "project_id"
    location := "us-central1"
    model_name := "text-bison@latest"
    generation_kwargs := [("temperature", 1)] }

/-- A concrete defaults mapping (temperature plus a key absent from the
overrides). -/
def wDefaults : List (String × Nat) :=
  [("temperature", 1), ("candidate_count", 4)]

/-- A concrete overrides mapping (the spec's merge example). -/
def wOverrides : List (String × Nat) :=
  [("temperature", 8), ("max_output_tokens", 256)]

/-- A concrete dict store holding the defaults and the overrides objects. -/
def wStore : DictStore Nat :=
  { objs := [wDefaults, wOverrides] }

/-- A concrete model loader. -/
def wLoad : String → String → Nat := fun _ _ => 7

/-- A concrete unloaded transcriber (the test fixture arguments). -/
def wUnloaded : LocalWhisperTranscriber Nat Nat :=
  { model_name := "large-v2", device := "cpu", whisper_params := [], model_handle := none }

/-- A concrete transcriber whose model handle is already loaded. -/
def wLoaded : LocalWhisperTranscriber Nat Nat :=
  { model_name := "large-v2", device := "cpu"
    whisper_params := [("language", 1)], model_handle := some 7 }

/-- A concrete transcription backend: returns a text field plus one extra
metadata key, like the mocked backend of the tests. -/
def wBackend : AudioInput String Nat → List (String × Nat) → List (String × PyValue String Nat) :=
  fun _ _ => [("text", .str "test transcription"), ("other_metadata", .raw 3)]

/-- A concrete input batch: one structured path, one string path, one
open binary stream. -/
def wFiles : List (AudioInput String Nat) :=
  [.path "/tmp/a.wav", .stringPath "/tmp/b.wav", .stream 0]

/-- The results the concrete backend yields for `wFiles`, in order. -/
def wDocs : List (TranscriptionResult String Nat) :=
  [{ content := "test transcription"
     meta := [("audio_file", .path "/tmp/a.wav"), ("other_metadata", .raw 3)] },
   { content := "test transcription"
     meta := [("audio_file", .str "/tmp/b.wav"), ("other_metadata", .raw 3)] },
   { content := "test transcription"
     meta := [("audio_file", .str "<<binary stream>>"), ("other_metadata", .raw 3)] }]

/-- A concrete raw backend result (the end-to-end scenario of the spec). -/
def wRaw : List (String × PyValue String Nat) :=
  [("text", .str "hello world"), ("lang", .str "en")]

/-- A concrete path input item (the end-to-end scenario of the spec). -/
def wItem : AudioInput String Nat := .path "/tmp/a.wav"

/-- The result record of the end-to-end scenario. -/
def wDoc : TranscriptionResult String Nat :=
  { content := "hello world"
    meta := [("audio_file", .path "/tmp/a.wav"), ("lang", .str "en")] }

/-! ## Dictionary lemmas -/

/-- Lookup in an appended association list when the left part has the key. -/
theorem getVal?_append_some {α : Type} (A B : List (String × α)) (k : String) (v : α)
    (h : getVal? A k = some v) : getVal? (A ++ B) k = some v := by
  induction A with
  | nil => simp [getVal?] at h
  | cons kv rest ih =>
    obtain ⟨k1, v1⟩ := kv
    by_cases hk : k1 = k
    · simpa [getVal?, hk] using h
    · rw [List.cons_append]
      simp only [getVal?, if_neg hk] at h ⊢
      exact ih h

/-- Lookup in an appended association list when the left part lacks the key. -/
theorem getVal?_append_none {α : Type} (A B : List (String × α)) (k : String)
    (h : getVal? A k = none) : getVal? (A ++ B) k = getVal? B k := by
  induction A with
  | nil => rfl
  | cons kv rest ih =>
    obtain ⟨k1, v1⟩ := kv
    by_cases hk : k1 = k
    · simp [getVal?, hk] at h
    · rw [List.cons_append]
      simp only [getVal?, if_neg hk] at h ⊢
      exact ih h

/-- Lookup in the left half of `pyDictMerge`: the keys of the defaults with
the override value substituted where the overrides have the key. -/
theorem getVal?_overrideMap {α : Type} (d o : List (String × α)) (k : String) :
    getVal? (d.map (fun kv => (kv.1, (getVal? o kv.1).getD kv.2))) k
      = (getVal? d k).map (fun v => (getVal? o k).getD v) := by
  induction d with
  | nil => rfl
  | cons kv rest ih =>
    obtain ⟨k1, v1⟩ := kv
    by_cases hk : k1 = k
    · subst hk
      simp [getVal?]
    · simp [getVal?, hk, ih]

/-- Lookup in the right half of `pyDictMerge`: the pairs of the overrides
whose keys are absent from the defaults. -/
theorem getVal?_filterAbsent {α : Type} (d o : List (String × α)) (k : String) :
    getVal? (o.filter (fun kv => (getVal? d kv.1).isNone)) k
      = if (getVal? d k).isNone then getVal? o k else none := by
  induction o with
  | nil => simp [getVal?]
  | cons kv rest ih =>
    obtain ⟨k1, v1⟩ := kv
    by_cases hk : k1 = k
    · subst hk
      cases hd : (getVal? d k1).isNone <;>
        simp [List.filter_cons, getVal?, hd, ih]
    · cases hd : (getVal? d k1).isNone <;>
        simp [List.filter_cons, getVal?, hd, hk, ih]

/-- Lookup in the merged dict when the overrides have the key: the override
value wins. -/
theorem getVal?_pyDictMerge_of_some {α : Type} (d o : List (String × α)) (k : String)
    (v : α) (h : getVal? o k = some v) : getVal? (pyDictMerge d o) k = some v := by
  unfold pyDictMerge
  cases hd : getVal? d k with
  | some w =>
    have h1 := getVal?_overrideMap d o k
    rw [hd, h] at h1
    exact getVal?_append_some _ _ _ _ h1
  | none =>
    have h1 := getVal?_overrideMap d o k
    rw [hd] at h1
    rw [getVal?_append_none _ _ _ (by simpa using h1), getVal?_filterAbsent d o k, hd]
    simpa using h

/-- Lookup in the merged dict when the overrides lack the key: the default
value survives. -/
theorem getVal?_pyDictMerge_of_none {α : Type} (d o : List (String × α)) (k : String)
    (h : getVal? o k = none) : getVal? (pyDictMerge d o) k = getVal? d k := by
  unfold pyDictMerge
  cases hd : getVal? d k with
  | some w =>
    have h1 := getVal?_overrideMap d o k
    rw [hd, h] at h1
    simp at h1
    exact getVal?_append_some _ _ _ _ h1
  | none =>
    have h1 := getVal?_overrideMap d o k
    rw [hd] at h1
    rw [getVal?_append_none _ _ _ (by simpa using h1), getVal?_filterAbsent d o k, hd, h]
    simp

/-- Removing a key from a dict removes it: lookup of the removed key fails. -/
theorem getVal?_eraseKey_self {α : Type} (d : List (String × α)) (k : String) :
    getVal? (eraseKey d k) k = none := by
  induction d with
  | nil => rfl
  | cons kv rest ih =>
    obtain ⟨k1, v1⟩ := kv
    by_cases hk : k1 = k
    · subst hk
      simpa [eraseKey, List.filter_cons] using ih
    · simpa [eraseKey, List.filter_cons, hk, getVal?] using ih

/-- Removing one key from a dict leaves lookup of every other key unchanged. -/
theorem getVal?_eraseKey_ne {α : Type} (d : List (String × α)) (k k0 : String)
    (h : k ≠ k0) : getVal? (eraseKey d k0) k = getVal? d k := by
  induction d with
  | nil => rfl
  | cons kv rest ih =>
    obtain ⟨k1, v1⟩ := kv
    simp only [eraseKey] at ih ⊢
    by_cases hk : k1 = k0
    · subst hk
      simp [List.filter_cons, getVal?, Ne.symm h, ih]
    · by_cases hk1 : k1 = k
      · subst hk1
        simp [List.filter_cons, hk, getVal?]
      · simp [List.filter_cons, hk, hk1, getVal?, ih]

/-- Indexing an appended list below the length of the left part. -/
theorem get?_append_lt {γ : Type} (l : List γ) (x : γ) (i : Nat) (h : i < l.length) :
    (l ++ [x]).get? i = l.get? i := by
  induction l generalizing i with
  | nil => simp at h
  | cons a rest ih =>
    cases i with
    | zero => rfl
    | succ j => exact ih j (Nat.lt_of_succ_lt_succ h)

/-- Indexing an appended singleton at the length of the left part. -/
theorem get?_append_self {γ : Type} (l : List γ) (x : γ) :
    (l ++ [x]).get? l.length = some x := by
  induction l with
  | nil => rfl
  | cons a rest ih => exact ih

/-- Calling `warm_up` any number of times on an already-loaded transcriber
changes nothing and performs no load. -/
theorem warmUpTimes_loaded {α μ : Type} (lm : String → String → μ)
    (c : LocalWhisperTranscriber α μ) (m : μ) (h : c.model_handle = some m) (n : Nat) :
    warmUpTimes lm c n = (c, 0) := by
  induction n with
  | zero => rfl
  | succ k ih =>
    simp only [warmUpTimes]
    simp [LocalWhisperTranscriber.warm_up, h, ih]

/-- A successful `transcribeList` yields one result per input item in input
order, each built from that item and the backend's raw result for it. -/
theorem transcribeList_spec {π σ α β : Type}
    (backend : AudioInput π σ → List (String × α) → List (String × PyValue π β))
    (params : List (String × α)) (files : List (AudioInput π σ))
    (rs : List (TranscriptionResult π β))
    (h : transcribeList backend params files = some rs) :
    rs.length = files.length
    ∧ ∀ (i : Nat) (hi : i < files.length) (hi2 : i < rs.length),
        buildResult (files.get ⟨i, hi⟩) (backend (files.get ⟨i, hi⟩) params)
          = some (rs.get ⟨i, hi2⟩) := by
  induction files generalizing rs with
  | nil =>
    simp [transcribeList] at h
    subst h
    exact ⟨rfl, fun i hi => absurd hi (by simp)⟩
  | cons f fs ih =>
    simp only [transcribeList] at h
    cases hb : buildResult f (backend f params) with
    | none => rw [hb] at h; simp at h
    | some r =>
      rw [hb] at h
      cases ht : transcribeList backend params fs with
      | none => rw [ht] at h; simp at h
      | some rest =>
        rw [ht] at h
        simp at h
        subst h
        obtain ⟨ihlen, ihidx⟩ := ih rest ht
        refine ⟨by simp [ihlen], ?_⟩
        intro i hi hi2
        cases i with
        | zero => exact hb
        | succ j => exact ihidx j (Nat.lt_of_succ_lt_succ hi) (Nat.lt_of_succ_lt_succ hi2)

/-! ## Claims -/

/-- Claim C2: the merge performed by `VertexAIGenerator.run` keeps every key
of the defaults, gives every key present in the overrides the override value,
adds keys present only in the overrides, and treats an absent overrides
argument exactly like an empty mapping. -/
theorem run_merge_semantics {α ρ : Type} (d o : List (String × α)) (k : String)
    (predict : String → String → List (String × α) → ρ) (textOf : ρ → String)
    (self : VertexAIGenerator α) (prompt : String) :
    (containsKey d k = true → containsKey (pyDictMerge d o) k = true)
    ∧ (∀ v : α, getVal? o k = some v → getVal? (pyDictMerge d o) k = some v)
    ∧ (getVal? o k = none → getVal? (pyDictMerge d o) k = getVal? d k)
    ∧ (containsKey o k = true → containsKey (pyDictMerge d o) k = true)
    ∧ VertexAIGenerator.run predict textOf self prompt none
        = VertexAIGenerator.run predict textOf self prompt (some []) := by
  refine ⟨?_, ?_, ?_, ?_, rfl⟩
  · intro h
    cases ho : getVal? o k with
    | some v => simp [containsKey, getVal?_pyDictMerge_of_some d o k v ho]
    | none =>
      rw [containsKey, getVal?_pyDictMerge_of_none d o k ho]
      exact h
  · intro v hv
    exact getVal?_pyDictMerge_of_some d o k v hv
  · intro hn
    exact getVal?_pyDictMerge_of_none d o k hn
  · intro h
    rw [containsKey] at h
    cases ho : getVal? o k with
    | some v => simp [containsKey, getVal?_pyDictMerge_of_some d o k v ho]
    | none => rw [ho] at h; simp at h

/-- Claim C2 witness: the merge of the concrete defaults and overrides keeps
the defaults-only key, takes the override value on the conflicting key, adds
the overrides-only key, and `run` without overrides equals `run` with an
empty overrides mapping. -/
theorem run_merge_semantics_witness :
    containsKey (pyDictMerge wDefaults wOverrides) "candidate_count" = true
    ∧ getVal? (pyDictMerge wDefaults wOverrides) "temperature" = some 8
    ∧ getVal? (pyDictMerge wDefaults wOverrides) "max_output_tokens" = some 256
    ∧ getVal? (pyDictMerge wDefaults wOverrides) "candidate_count"
        = getVal? wDefaults "candidate_count"
    ∧ VertexAIGenerator.run wPredict id wGen "Hello, how are you?" none
        = VertexAIGenerator.run wPredict id wGen "Hello, how are you?" (some []) :=
  ⟨(run_merge_semantics wDefaults wOverrides "candidate_count" wPredict id wGen
      "Hello, how are you?").1 (by decide),
   (run_merge_semantics wDefaults wOverrides "temperature" wPredict id wGen
      "Hello, how are you?").2.1 8 (by decide),
   (run_merge_semantics wDefaults wOverrides "max_output_tokens" wPredict id wGen
      "Hello, how are you?").2.1 256 (by decide),
   (run_merge_semantics wDefaults wOverrides "candidate_count" wPredict id wGen
      "Hello, how are you?").2.2.1 (by decide),
   (run_merge_semantics wDefaults wOverrides "candidate_count" wPredict id wGen
      "Hello, how are you?").2.2.2.2⟩

/-- Claim C6: `VertexAIGenerator.run` invokes the backend generation call
exactly once, with the prompt and the merged parameters, and returns exactly
one reply — the response text — and one metadata entry — the raw response —
positionally aligned. -/
theorem run_single_reply_aligned {α ρ : Type}
    (predict : String → String → List (String × α) → ρ) (textOf : ρ → String)
    (self : VertexAIGenerator α) (prompt : String)
    (gkw : Option (List (String × α))) :
    (VertexAIGenerator.run predict textOf self prompt gkw).2
      = [{ model_name := self.model_name, prompt := prompt
           params := pyDictMerge self.generation_kwargs (gkw.getD []) }]
    ∧ (VertexAIGenerator.run predict textOf self prompt gkw).1.replies
        = [textOf (predict self.model_name prompt
            (pyDictMerge self.generation_kwargs (gkw.getD [])))]
    ∧ (VertexAIGenerator.run predict textOf self prompt gkw).1.metadata
        = [predict self.model_name prompt
            (pyDictMerge self.generation_kwargs (gkw.getD []))]
    ∧ (VertexAIGenerator.run predict textOf self prompt gkw).1.replies.length = 1
    ∧ (VertexAIGenerator.run predict textOf self prompt gkw).1.metadata.length = 1
    ∧ ∀ (i : Nat) (h1 : i < (VertexAIGenerator.run predict textOf self prompt gkw).1.replies.length)
        (h2 : i < (VertexAIGenerator.run predict textOf self prompt gkw).1.metadata.length),
        (VertexAIGenerator.run predict textOf self prompt gkw).1.replies.get ⟨i, h1⟩
          = textOf ((VertexAIGenerator.run predict textOf self prompt gkw).1.metadata.get ⟨i, h2⟩) := by
  refine ⟨rfl, rfl, rfl, rfl, rfl, ?_⟩
  intro i h1 h2
  cases i with
  | zero => rfl
  | succ j => exact absurd h1 (by simp [VertexAIGenerator.run])

/-- Claim C6 witness: on the concrete generator the call record holds exactly
one backend invocation carrying the merged parameters, and the single reply
is the text of the single metadata entry. -/
theorem run_single_reply_aligned_witness :
    (VertexAIGenerator.run wPredict id wGen "How are you?" (some wOverrides)).2
      = [{ model_name := wGen.model_name, prompt := "How are you?"
           params := pyDictMerge wGen.generation_kwargs wOverrides }]
    ∧ (VertexAIGenerator.run wPredict id wGen "How are you?" (some wOverrides)).1.replies.get
        ⟨0, by decide⟩
      = id ((VertexAIGenerator.run wPredict id wGen "How are you?" (some wOverrides)).1.metadata.get
        ⟨0, by decide⟩) :=
  ⟨(run_single_reply_aligned wPredict id wGen "How are you?" (some wOverrides)).1,
   (run_single_reply_aligned wPredict id wGen "How are you?" (some wOverrides)).2.2.2.2.2
      0 (by decide) (by decide)⟩

/-- Claim C7: the merge is pure with respect to the store of dict objects:
it leaves the defaults object and the overrides object unchanged and
allocates a fresh object, distinct from both, holding the merged mapping. -/
theorem mergeAlloc_pure {α : Type} (s : DictStore α) (rd ro : Nat)
    (hd : rd < s.objs.length) (ho : ro < s.objs.length) :
    DictStore.deref (mergeAlloc s rd ro).1 rd = DictStore.deref s rd
    ∧ DictStore.deref (mergeAlloc s rd ro).1 ro = DictStore.deref s ro
    ∧ (mergeAlloc s rd ro).2 ≠ rd
    ∧ (mergeAlloc s rd ro).2 ≠ ro
    ∧ DictStore.deref (mergeAlloc s rd ro).1 (mergeAlloc s rd ro).2
        = pyDictMerge (DictStore.deref s rd) (DictStore.deref s ro) := by
  refine ⟨?_, ?_, Nat.ne_of_gt hd, Nat.ne_of_gt ho, ?_⟩
  · show ((s.objs ++ [_]).get? rd).getD [] = DictStore.deref s rd
    rw [get?_append_lt _ _ _ hd]
    rfl
  · show ((s.objs ++ [_]).get? ro).getD [] = DictStore.deref s ro
    rw [get?_append_lt _ _ _ ho]
    rfl
  · show ((s.objs ++ [_]).get? s.objs.length).getD [] = _
    rw [get?_append_self]
    rfl

/-- Claim C7 witness: on the concrete store the merge leaves both operand
objects unchanged and returns a reference distinct from both. -/
theorem mergeAlloc_pure_witness :
    DictStore.deref (mergeAlloc wStore 0 1).1 0 = DictStore.deref wStore 0
    ∧ DictStore.deref (mergeAlloc wStore 0 1).1 1 = DictStore.deref wStore 1
    ∧ (mergeAlloc wStore 0 1).2 ≠ 0
    ∧ (mergeAlloc wStore 0 1).2 ≠ 1
    ∧ DictStore.deref (mergeAlloc wStore 0 1).1 (mergeAlloc wStore 0 1).2
        = pyDictMerge (DictStore.deref wStore 0) (DictStore.deref wStore 1) :=
  mergeAlloc_pure wStore 0 1 (by decide) (by decide)

/-- Claim C9: reconstructing a generator from its own descriptor
(`from_dict` after `to_dict`) yields a component with identical constructor
arguments, whatever process-wide state the reconstruction runs in. -/
theorem vertexai_descriptor_roundtrip {α : Type} (s : VertexState)
    (g : VertexAIGenerator α) :
    (VertexAIGenerator.from_dict s (VertexAIGenerator.to_dict g)).2 = g := rfl

/-- Claim C10 counterexample: the construction-time global client
initialization is not guarded: constructing two component instances from a
fresh process state runs `vertexai.init` twice, not once. -/
theorem construction_not_guarded_counterexample :
    ((VertexAIGenerator.mk_init (α := Nat)
        (VertexAIGenerator.mk_init (α := Nat) { init_calls := [] }
          "project_id" "us-central1" "text-bison@latest" none).1
        "project_id" "us-central1" "text-bison@latest" none).1.init_calls.length = 2)
    ∧ ¬ ((VertexAIGenerator.mk_init (α := Nat)
        (VertexAIGenerator.mk_init (α := Nat) { init_calls := [] }
          "project_id" "us-central1" "text-bison@latest" none).1
        "project_id" "us-central1" "text-bison@latest" none).1.init_calls.length = 1) := by
  decide

/-- Claim C10 (amended): the remote-generation component performs the
process-wide client initialization as a side effect of construction, and it
is unguarded: every construction appends exactly one `vertexai.init`
invocation to the process-wide state, so repeated construction re-triggers
the global setup once per instance. -/
theorem construction_reinits_each_time {α : Type} (s : VertexState)
    (p l m : String) (gk : Option (List (String × α))) :
    (VertexAIGenerator.mk_init s p l m gk).1.init_calls
      = s.init_calls ++ [(p, l)] := rfl

/-- Claim C1: starting from an unloaded component, calling `warm_up` N times
for any N ≥ 1 invokes the underlying loader exactly once, and the loaded
resource stored by the first call is still the one held afterwards. -/
theorem warm_up_load_once {α μ : Type} (load_model : String → String → μ)
    (c : LocalWhisperTranscriber α μ) (h : c.model_handle = none)
    (N : Nat) (hN : 1 ≤ N) :
    (warmUpTimes load_model c N).2 = 1
    ∧ (warmUpTimes load_model c N).1.model_handle
        = some (load_model c.model_name c.device) := by
  obtain ⟨n, rfl⟩ : ∃ n, N = n + 1 := ⟨N - 1, (Nat.succ_pred_eq_of_pos hN).symm⟩
  have hstep : LocalWhisperTranscriber.warm_up load_model c
      = ({ c with model_handle := some (load_model c.model_name c.device) }, 1) := by
    simp [LocalWhisperTranscriber.warm_up, h]
  have hloaded := warmUpTimes_loaded load_model
    { c with model_handle := some (load_model c.model_name c.device) }
    (load_model c.model_name c.device) rfl n
  simp [warmUpTimes, hstep, hloaded]

/-- Claim C1 witness: three successive `warm_up` calls on the concrete
unloaded transcriber perform exactly one load and leave the loaded resource
in place. -/
theorem warm_up_load_once_witness :
    (warmUpTimes wLoad wUnloaded 3).2 = 1
    ∧ (warmUpTimes wLoad wUnloaded 3).1.model_handle
        = some (wLoad wUnloaded.model_name wUnloaded.device) :=
  warm_up_load_once wLoad wUnloaded rfl 3 (by decide)

/-- Claim C3: in the result built for an input item, `meta["audio_file"]` is
the fixed literal for an open binary stream whatever the stream handle is,
the string itself for a plain string input, and the path value itself for a
structured path input. -/
theorem classify_identity_in_meta {π σ β : Type} (st : σ) (s : String) (p : π)
    (raw : List (String × PyValue π β)) (t : String)
    (h : getVal? raw "text" = some (.str t)) :
    Option.bind (buildResult (AudioInput.stream (π := π) st) raw)
        (fun r => getVal? r.meta "audio_file") = some (.str "<<binary stream>>")
    ∧ Option.bind (buildResult (AudioInput.stringPath (π := π) (σ := σ) s) raw)
        (fun r => getVal? r.meta "audio_file") = some (.str s)
    ∧ Option.bind (buildResult (AudioInput.path (σ := σ) p) raw)
        (fun r => getVal? r.meta "audio_file") = some (.path p) := by
  refine ⟨?_, ?_, ?_⟩ <;> simp [buildResult, h, classify, getVal?]

/-- Claim C3 witness: on the concrete raw backend result, a stream input
with handle 3 yields the sentinel, the string input yields itself and the
path input yields itself. -/
theorem classify_identity_in_meta_witness :
    Option.bind (buildResult (AudioInput.stream (π := String) (3 : Nat)) wRaw)
        (fun r => getVal? r.meta "audio_file")
      = some (.str "<<binary stream>>")
    ∧ Option.bind (buildResult (AudioInput.stringPath (π := String) (σ := Nat) "b.wav") wRaw)
        (fun r => getVal? r.meta "audio_file")
      = some (.str "b.wav")
    ∧ Option.bind (buildResult (AudioInput.path (σ := Nat) "/tmp/a.wav") wRaw)
        (fun r => getVal? r.meta "audio_file")
      = some (.path "/tmp/a.wav") :=
  classify_identity_in_meta 3 "b.wav" "/tmp/a.wav" wRaw "hello world" (by decide)

/-- Claim C4: a successful `transcribe` returns exactly one result per input
item, in input order with a 1:1 positional correspondence, and `run` wraps
the identical sequence in the `documents` output slot. -/
theorem transcribe_preserves_order {π σ α β μ : Type}
    (backend : AudioInput π σ → List (String × α) → List (String × PyValue π β))
    (c : LocalWhisperTranscriber α μ) (files : List (AudioInput π σ))
    (rs : List (TranscriptionResult π β))
    (h : LocalWhisperTranscriber.transcribe backend c files = .ok rs) :
    rs.length = files.length
    ∧ (∀ (i : Nat) (hi : i < files.length) (hi2 : i < rs.length),
        buildResult (files.get ⟨i, hi⟩) (backend (files.get ⟨i, hi⟩) c.whisper_params)
          = some (rs.get ⟨i, hi2⟩))
    ∧ LocalWhisperTranscriber.run backend c files = .ok { documents := rs } := by
  unfold LocalWhisperTranscriber.transcribe at h
  cases hm : c.model_handle with
  | none => rw [hm] at h; simp at h
  | some m =>
    rw [hm] at h
    cases ht : transcribeList backend c.whisper_params files with
    | none => rw [ht] at h; simp at h
    | some rs0 =>
      rw [ht] at h
      simp at h
      subst h
      obtain ⟨hlen, hidx⟩ := transcribeList_spec backend c.whisper_params files rs0 ht
      refine ⟨hlen, hidx, ?_⟩
      simp [LocalWhisperTranscriber.run, LocalWhisperTranscriber.transcribe, hm, ht,
        Except.map]

/-- Claim C4 witness: on the concrete three-item batch the transcriber
returns three results in input order and `run` wraps the same sequence in
the `documents` slot; the third result is built from the third input. -/
theorem transcribe_preserves_order_witness :
    wDocs.length = wFiles.length
    ∧ buildResult (wFiles.get ⟨2, by decide⟩)
        (wBackend (wFiles.get ⟨2, by decide⟩) wLoaded.whisper_params)
        = some (wDocs.get ⟨2, by decide⟩)
    ∧ LocalWhisperTranscriber.run wBackend wLoaded wFiles = .ok { documents := wDocs } :=
  ⟨(transcribe_preserves_order wBackend wLoaded wFiles wDocs rfl).1,
   (transcribe_preserves_order wBackend wLoaded wFiles wDocs rfl).2.1
      2 (by decide) (by decide),
   (transcribe_preserves_order wBackend wLoaded wFiles wDocs rfl).2.2⟩

/-- Claim C5: the result built for an item from a raw backend result with a
text field has the text field as content, the derived identity under
`audio_file` in the metadata, no text field in the metadata, and every other
raw key passed through unchanged. -/
theorem result_content_meta {π σ β : Type} (item : AudioInput π σ)
    (raw : List (String × PyValue π β)) (t : String) (r : TranscriptionResult π β)
    (h : getVal? raw "text" = some (.str t))
    (hr : buildResult item raw = some r) :
    r.content = t
    ∧ getVal? r.meta "audio_file" = some ((classify item).identity : PyValue π β)
    ∧ getVal? r.meta "text" = none
    ∧ ∀ k, k ≠ "text" → k ≠ "audio_file" → getVal? r.meta k = getVal? raw k := by
  unfold buildResult at hr
  rw [h] at hr
  simp at hr
  subst hr
  refine ⟨rfl, by simp [getVal?], ?_, ?_⟩
  · simp only [getVal?]
    rw [if_neg (by decide)]
    exact getVal?_eraseKey_self raw "text"
  · intro k hkt hka
    simp only [getVal?]
    rw [if_neg (Ne.symm hka)]
    exact getVal?_eraseKey_ne raw k "text" hkt

/-- Claim C5 witness: the end-to-end scenario — a backend raw result with
text "hello world" and one extra key "lang" for the path input "/tmp/a.wav"
gives content "hello world", the path under `audio_file`, no text key, and
the "lang" entry passed through. -/
theorem result_content_meta_witness :
    wDoc.content = "hello world"
    ∧ getVal? wDoc.meta "audio_file" = some (.path "/tmp/a.wav")
    ∧ getVal? wDoc.meta "text" = none
    ∧ getVal? wDoc.meta "lang" = getVal? wRaw "lang" :=
  ⟨(result_content_meta wItem wRaw "hello world" wDoc (by decide) (by decide)).1,
   (result_content_meta wItem wRaw "hello world" wDoc (by decide) (by decide)).2.1,
   (result_content_meta wItem wRaw "hello world" wDoc (by decide) (by decide)).2.2.1,
   (result_content_meta wItem wRaw "hello world" wDoc (by decide) (by decide)).2.2.2
      "lang" (by decide) (by decide)⟩

/-- Claim C8: constructing the transcriber with a model identifier outside
the fixed recognized set fails immediately with a ValueError-class error
naming the invalid identifier, before any model load; with a recognized
identifier construction succeeds and the model is not loaded. -/
theorem mk_init_validates_model {α μ : Type} (name device : String)
    (wp : List (String × α)) :
    (availableModels.contains name = false →
      LocalWhisperTranscriber.mk_init (α := α) (μ := μ) name device wp
        = .error { offending := name
                   message := "Model name \x27" ++ name ++ "\x27 not recognized" })
    ∧ (availableModels.contains name = true →
      LocalWhisperTranscriber.mk_init (α := α) (μ := μ) name device wp
        = .ok { model_name := name, device := device
                whisper_params := wp, model_handle := none }) := by
  constructor
  · intro h
    have h2 : ¬ name ∈ availableModels := by simpa using h
    simp [LocalWhisperTranscriber.mk_init, h2]
  · intro h
    have h2 : name ∈ availableModels := by simpa using h
    simp [LocalWhisperTranscriber.mk_init, h2]

/-- Claim C8 witness: constructing with "whisper-1" fails with the
ValueError naming it, and constructing with "large-v2" succeeds without
loading the model. -/
theorem mk_init_validates_model_witness :
    LocalWhisperTranscriber.mk_init (α := Nat) (μ := Nat) "whisper-1" "cpu" []
      = .error { offending := "whisper-1"
                 message := "Model name \x27" ++ "whisper-1" ++ "\x27 not recognized" }
    ∧ LocalWhisperTranscriber.mk_init (α := Nat) (μ := Nat) "large-v2" "cpu" []
      = .ok { model_name := "large-v2", device := "cpu"
              whisper_params := [], model_handle := none } :=
  ⟨(mk_init_validates_model "whisper-1" "cpu" []).1 (by decide),
   (mk_init_validates_model "large-v2" "cpu" []).2 (by decide)⟩
